import Mathlib

/-!
Verification of the resilient data-access layer of the MarketingFrontend2
repository: the read-with-fallback functions of src/services/api.ts and
src/services/targetingIntel.ts, their fallback constants, the write
operation and the two health probes.

Shallow embedding conventions.
JavaScript numbers are modelled as rationals; ISO timestamps and dates as
strings.  The supabase client wrapper (src/services/supabase.ts, absent
from the staged sources) is the gateway: per the specification it exposes a
synchronous availability flag and a single-round-trip query over the store,
returning a pair of nullable data and a nullable error.  A query is given
by a store (the table contents, a list of rows) together with a failure
selector: the round trip either executes the filter/order/limit chain on
the store (ok), reports a store-side error with null data (err), or raises
an exception that the surrounding try/catch of each source function
absorbs (raised).  A single-row request (the .single() modifier) yields
the head of the delivered rows, or null data when no row was delivered.
Each embedded function returns its result paired with the number of
gateway round trips it issued, so that call-count assertions can be
stated.
-/

/-- Modelled from the spec: the failure channels of one gateway round trip
(src/services/supabase.ts is not among the staged sources).  ok delivers
the rows the chain selects; err is a store-reported error (the error field
of the response, data null); raised is an exception caught by the
try/catch block of the calling function. -/
inductive QueryFail where
  | ok : QueryFail
  | err : String → QueryFail
  | raised : String → QueryFail
deriving DecidableEq

/-- Characters of a string, lower-cased (the case folding of SQL ILIKE). -/
def lowerChars (s : String) : List Char :=
  s.toList.map Char.toLower

/-- Whether the second list is an initial segment of the first. -/
def listStartsWith : List Char → List Char → Bool
  | _, [] => true
  | [], _ :: _ => false
  | a :: as, b :: bs => a == b && listStartsWith as bs

/-- Whether the second list occurs contiguously inside the first. -/
def listContainsSub : List Char → List Char → Bool
  | [], need => need.isEmpty
  | h :: t, need => listStartsWith (h :: t) need || listContainsSub t need

/-- Modelled from the spec: the SQL ILIKE pattern used by
fetchTargetingIntelByCompetitorName, name ILIKE %query% — case-insensitive
containment of the query in the name (the gateway executes it; its client
is not among the staged sources). -/
def ilikeMatch (name query : String) : Bool :=
  listContainsSub (lowerChars name) (lowerChars query)

/-! ## src/services/api.ts : entity shapes and fallback constants -/

/-- The SummaryMetrics interface of src/services/api.ts.  Record-typed
maps are association lists; the opaque top_performers array is a list of
opaque labels. -/
structure SummaryMetrics where
  id : String
  total_competitor_spend : ℚ
  active_campaigns_count : ℚ
  total_impressions : ℚ
  average_ctr : ℚ
  platform_distribution : List (String × ℚ)
  top_performers : List String
  spend_by_industry : List (String × ℚ)
  created_at : String
  updated_at : String
deriving DecidableEq

/-- A raw summary_metrics row as the untyped gateway delivers it: every
field may be absent.  fetchSummaryMetrics returns such rows unmapped
(data[0] under a compile-time-only cast), so its runtime result type is
this raw shape. -/
structure RawSummaryRow where
  id : Option String
  total_competitor_spend : Option ℚ
  active_campaigns_count : Option ℚ
  total_impressions : Option ℚ
  average_ctr : Option ℚ
  platform_distribution : Option (List (String × ℚ))
  top_performers : Option (List String)
  spend_by_industry : Option (List (String × ℚ))
  created_at : Option String
  updated_at : Option String
deriving DecidableEq

/-- A fully populated SummaryMetrics viewed as a raw row (all fields
present). -/
def SummaryMetrics.toRaw (m : SummaryMetrics) : RawSummaryRow :=
  { id := some m.id
    total_competitor_spend := some m.total_competitor_spend
    active_campaigns_count := some m.active_campaigns_count
    total_impressions := some m.total_impressions
    average_ctr := some m.average_ctr
    platform_distribution := some m.platform_distribution
    top_performers := some m.top_performers
    spend_by_industry := some m.spend_by_industry
    created_at := some m.created_at
    updated_at := some m.updated_at }

/-- The mockSummaryMetrics fallback constant of src/services/api.ts.
Its two timestamps are new Date().toISOString() evaluated once at module
load; loadTime is that value. -/
def mockSummaryMetrics (loadTime : String) : SummaryMetrics :=
  { id := "mock-1"
    total_competitor_spend := 124300
    active_campaigns_count := 1247
    total_impressions := 12400000
    average_ctr := 0.0342
    platform_distribution :=
      [("Meta", 36.5), ("Google", 31.3), ("TikTok", 19.9), ("LinkedIn", 12.4)]
    top_performers := []
    spend_by_industry := []
    created_at := loadTime
    updated_at := loadTime }

/-- The mock summary fallback as the raw row fetchSummaryMetrics actually
returns. -/
def mockSummaryRaw (loadTime : String) : RawSummaryRow :=
  (mockSummaryMetrics loadTime).toRaw

/-- The AdCardData interface of src/services/api.ts. -/
structure AdCardData where
  id : String
  date : String
  competitor_name : String
  platform : String
  status : String
  daily_spend : ℚ
  daily_impressions : ℚ
  daily_ctr : ℚ
deriving DecidableEq

/-- The mockDailyMetrics fallback constant of src/services/api.ts: the
empty list. -/
def mockDailyMetrics : List AdCardData := []

/-- The joined competitor reference of a daily_metrics row (competitor
join may miss, and its name field may be absent). -/
structure RawCompetitorRef where
  id : String
  name : Option String
deriving DecidableEq

/-- A raw daily_metrics row as selected by fetchDailyMetrics: id, date,
the three numeric columns (possibly absent) and the possibly missing
competitor join. -/
structure RawDailyRow where
  id : String
  date : String
  daily_spend : Option ℚ
  daily_impressions : Option ℚ
  daily_ctr : Option ℚ
  competitor : Option RawCompetitorRef
deriving DecidableEq

/-- The row-to-entity mapping inside fetchDailyMetrics (the data.map
callback): numeric fields default to 0, a missing competitor name to
"Unknown", platform and status are the constants "Mixed" and "ACTIVE". -/
def mapDailyRow (row : RawDailyRow) : AdCardData :=
  { id := row.id
    date := row.date
    competitor_name := (row.competitor.bind RawCompetitorRef.name).getD "Unknown"
    platform := "Mixed"
    status := "ACTIVE"
    daily_spend := row.daily_spend.getD 0
    daily_impressions := row.daily_impressions.getD 0
    daily_ctr := row.daily_ctr.getD 0 }

/-- Descending created_at order on raw summary rows (the order clause of
fetchSummaryMetrics; an absent timestamp sorts as the empty string). -/
def summaryCreatedDescRel (a b : RawSummaryRow) : Prop :=
  b.created_at.getD "" ≤ a.created_at.getD ""

instance : DecidableRel summaryCreatedDescRel :=
  fun _ _ => inferInstanceAs (Decidable (_ ≤ _))

/-- Descending daily_spend order on raw daily rows (the order clause of
fetchDailyMetrics; an absent spend sorts as 0, matching the 0 default the
row mapping applies). -/
def spendDescRel (a b : RawDailyRow) : Prop :=
  b.daily_spend.getD 0 ≤ a.daily_spend.getD 0

instance : DecidableRel spendDescRel :=
  fun _ _ => inferInstanceAs (Decidable (_ ≤ _))

instance : IsTotal RawDailyRow spendDescRel :=
  ⟨fun a b => le_total (b.daily_spend.getD 0) (a.daily_spend.getD 0)⟩

instance : IsTrans RawDailyRow spendDescRel :=
  ⟨fun _ _ _ h1 h2 => le_trans h2 h1⟩

/-- fetchSummaryMetrics of src/services/api.ts.  Unavailable gateway:
mock constant, no round trip.  Otherwise one query (select all, order
created_at descending, limit 1); a query error, null data or an empty row
list yields the mock constant; a delivered row is returned unmapped
(data[0]). -/
def fetchSummaryMetrics (connected : Bool) (loadTime : String)
    (store : List RawSummaryRow) (fail : QueryFail) : RawSummaryRow × Nat :=
  if !connected then
    (mockSummaryRaw loadTime, 0)
  else
    match fail with
    | .err _ => (mockSummaryRaw loadTime, 1)
    | .raised _ => (mockSummaryRaw loadTime, 1)
    | .ok =>
      match (List.insertionSort summaryCreatedDescRel store).take 1 with
      | [] => (mockSummaryRaw loadTime, 1)
      | row :: _ => (row, 1)

/-- The target date computation of fetchDailyMetrics:
date || today — the JavaScript or-default also replaces an empty string. -/
def resolveTargetDate (date : Option String) (today : String) : String :=
  match date with
  | none => today
  | some d => if d = "" then today else d

/-- fetchDailyMetrics of src/services/api.ts.  Unavailable gateway: the
empty mock list, no round trip.  Otherwise one query (filter date equal to
the target date, order daily_spend descending, limit 10); a query error or
null data yields the mock list; delivered rows are mapped through
mapDailyRow. -/
def fetchDailyMetrics (connected : Bool) (date : Option String)
    (today : String) (store : List RawDailyRow) (fail : QueryFail) :
    List AdCardData × Nat :=
  if !connected then
    (mockDailyMetrics, 0)
  else
    match fail with
    | .err _ => (mockDailyMetrics, 1)
    | .raised _ => (mockDailyMetrics, 1)
    | .ok =>
      let targetDate := resolveTargetDate date today
      let rows :=
        (List.insertionSort spendDescRel
          (store.filter (fun r => r.date == targetDate))).take 10
      (rows.map mapDailyRow, 1)

/-- The result shape of testDatabaseConnection. -/
structure DbConnResult where
  connected : Bool
  summaryCount : Nat
  dailyCount : Nat
  error : Option String
deriving DecidableEq

/-- The count field of a head-only count query: the row count on success,
null when the store reports an error. -/
def countField (fail : QueryFail) (n : Nat) : Option Nat :=
  match fail with
  | .ok => some n
  | .err _ => none
  | .raised _ => none

/-- testDatabaseConnection of src/services/api.ts.  Unavailable gateway:
connected false with the fixed message, no round trip.  Otherwise two
count queries; the source destructures only the count field of each
response, so a store-reported count error is not examined — the null
count is defaulted to 0 and connected stays true.  Only an exception
thrown by either round trip reaches the catch block and degrades the
result. -/
def testDatabaseConnection (connected : Bool)
    (summaryStore : List RawSummaryRow) (dailyStore : List RawDailyRow)
    (sFail dFail : QueryFail) : DbConnResult × Nat :=
  if !connected then
    ({ connected := false, summaryCount := 0, dailyCount := 0,
       error := some "Not connected to Supabase" }, 0)
  else
    match sFail with
    | .raised m =>
      ({ connected := false, summaryCount := 0, dailyCount := 0,
         error := some m }, 1)
    | _ =>
      match dFail with
      | .raised m =>
        ({ connected := false, summaryCount := 0, dailyCount := 0,
           error := some m }, 2)
      | _ =>
        ({ connected := true
           summaryCount := (countField sFail summaryStore.length).getD 0
           dailyCount := (countField dFail dailyStore.length).getD 0
           error := none }, 2)

/-! ## src/services/targetingIntel.ts : entity shapes and fallback constant -/

/-- The AgeDistribution interface; the source keys are the bucket labels
18-24, 25-34, 35-44, 45-54 and 55+. -/
structure AgeDistribution where
  age18_24 : ℚ
  age25_34 : ℚ
  age35_44 : ℚ
  age45_54 : ℚ
  age55plus : ℚ
deriving DecidableEq

/-- The GenderDistribution interface. -/
structure GenderDistribution where
  male : ℚ
  female : ℚ
  other : ℚ
deriving DecidableEq

/-- One country entry of the GeographicSpend map. -/
structure CountrySpend where
  spend : ℚ
  percentage : ℚ
deriving DecidableEq

/-- The InterestCluster interface. -/
structure InterestCluster where
  interest : String
  affinity : ℚ
  reach : ℚ
deriving DecidableEq

/-- The FunnelStage interface. -/
structure FunnelStage where
  label : String
  percentage : ℚ
  reach : ℚ
deriving DecidableEq

/-- The FunnelStagePrediction interface: four fixed named stages. -/
structure FunnelStagePrediction where
  awareness : FunnelStage
  consideration : FunnelStage
  conversion : FunnelStage
  retention : FunnelStage
deriving DecidableEq

/-- One entry of the hourly bidding series. -/
structure HourlyBid where
  time : String
  cpc : ℚ
  cpm : ℚ
deriving DecidableEq

/-- The peak_cpm block of BiddingStrategy. -/
structure PeakCpm where
  value : ℚ
  window : String
deriving DecidableEq

/-- The BiddingStrategy interface. -/
structure BiddingStrategy where
  hourly : List HourlyBid
  avg_cpc : ℚ
  peak_cpm : PeakCpm
  best_time : String
deriving DecidableEq

/-- The purchase_intent block of AdvancedTargeting. -/
structure PurchaseIntent where
  level : String
  confidence : ℚ
deriving DecidableEq

/-- The device_preference block of AdvancedTargeting. -/
structure DevicePref where
  mobile : ℚ
  desktop : ℚ
  ios_share : ℚ
deriving DecidableEq

/-- The competitor_overlap block of AdvancedTargeting. -/
structure CompetitorOverlap where
  brands : ℚ
  description : String
deriving DecidableEq

/-- The AdvancedTargeting interface. -/
structure AdvancedTargeting where
  purchase_intent : PurchaseIntent
  ai_recommendation : String
  device_preference : DevicePref
  competitor_overlap : CompetitorOverlap
deriving DecidableEq

/-- The TargetingIntelData interface of src/services/targetingIntel.ts.
The geographic_spend map is an association list of country entries. -/
structure TargetingIntelData where
  id : String
  competitor_id : String
  competitor_name : String
  age_distribution : AgeDistribution
  gender_distribution : GenderDistribution
  geographic_spend : List (String × CountrySpend)
  interest_clusters : List InterestCluster
  funnel_stage_prediction : FunnelStagePrediction
  bidding_strategy : BiddingStrategy
  advanced_targeting : AdvancedTargeting
  data_source : String
  confidence_score : ℚ
  created_at : String
  updated_at : String
deriving DecidableEq

/-- The mockTargetingIntelData fallback constant of
src/services/targetingIntel.ts, transcribed field for field.  Its two
timestamps are new Date().toISOString() evaluated once at module load;
loadTime is that value. -/
def mockTargetingIntelData (loadTime : String) : TargetingIntelData :=
  { id := "mock-1"
    competitor_id := "11111111-1111-1111-1111-111111111111"
    competitor_name := "Nike"
    age_distribution :=
      { age18_24 := 0.15, age25_34 := 0.35, age35_44 := 0.28
        age45_54 := 0.15, age55plus := 0.07 }
    gender_distribution := { male := 0.58, female := 0.40, other := 0.02 }
    geographic_spend :=
      [("United States", { spend := 18200, percentage := 45 }),
       ("United Kingdom", { spend := 8900, percentage := 22 }),
       ("Canada", { spend := 6100, percentage := 15 }),
       ("Australia", { spend := 4000, percentage := 10 }),
       ("Germany", { spend := 3200, percentage := 8 })]
    interest_clusters :=
      [{ interest := "Fitness & Running", affinity := 0.95, reach := 450000 },
       { interest := "Athletic Apparel", affinity := 0.88, reach := 380000 },
       { interest := "Health & Wellness", affinity := 0.82, reach := 520000 },
       { interest := "Sports Equipment", affinity := 0.78, reach := 290000 },
       { interest := "Marathon Training", affinity := 0.92, reach := 180000 },
       { interest := "Outdoor Activities", affinity := 0.75, reach := 610000 }]
    funnel_stage_prediction :=
      { awareness := { label := "Cold Traffic", percentage := 45, reach := 2100000 }
        consideration := { label := "Engagement", percentage := 30, reach := 1400000 }
        conversion := { label := "Retargeting", percentage := 20, reach := 940000 }
        retention := { label := "Loyalty", percentage := 5, reach := 235000 } }
    bidding_strategy :=
      { hourly :=
          [{ time := "12am", cpc := 1.1, cpm := 8.2 },
           { time := "3am", cpc := 0.9, cpm := 6.8 },
           { time := "6am", cpc := 1.6, cpm := 10.1 },
           { time := "9am", cpc := 2.0, cpm := 12.4 },
           { time := "12pm", cpc := 2.4, cpm := 14.2 },
           { time := "3pm", cpc := 2.2, cpm := 13.5 },
           { time := "6pm", cpc := 2.8, cpm := 15.6 },
           { time := "9pm", cpc := 1.9, cpm := 11.3 }]
        avg_cpc := 2.16
        peak_cpm := { value := 15.6, window := "6pm-9pm" }
        best_time := "3am-6am" }
    advanced_targeting :=
      { purchase_intent := { level := "High", confidence := 0.62 }
        ai_recommendation :=
          "Focus 60% of budget on awareness to fill top funnel. Strong retargeting opportunity observed."
        device_preference := { mobile := 0.78, desktop := 0.22, ios_share := 0.65 }
        competitor_overlap :=
          { brands := 3.2
            description := "Audience overlaps with similar athletic brands" } }
    data_source := "AI_MODELED"
    confidence_score := 0.75
    created_at := loadTime
    updated_at := loadTime }

/-- Descending created_at order on targeting rows (the order clause of the
targeting reads). -/
def targCreatedDescRel (a b : TargetingIntelData) : Prop :=
  b.created_at ≤ a.created_at

instance : DecidableRel targCreatedDescRel :=
  fun _ _ => inferInstanceAs (Decidable (_ ≤ _))

/-! ## src/services/targetingIntel.ts : operations -/

/-- fetchAllTargetingIntel of src/services/targetingIntel.ts.
Unavailable gateway: the single-element mock list, no round trip.
Otherwise one query (select all, order created_at descending); a query
error, null data or an empty row list yields the mock list; delivered
rows are returned unchanged (a compile-time-only cast, no mapping). -/
def fetchAllTargetingIntel (connected : Bool) (loadTime : String)
    (store : List TargetingIntelData) (fail : QueryFail) :
    List TargetingIntelData × Nat :=
  if !connected then
    ([mockTargetingIntelData loadTime], 0)
  else
    match fail with
    | .err _ => ([mockTargetingIntelData loadTime], 1)
    | .raised _ => ([mockTargetingIntelData loadTime], 1)
    | .ok =>
      let rows := List.insertionSort targCreatedDescRel store
      if rows.isEmpty then ([mockTargetingIntelData loadTime], 1)
      else (rows, 1)

/-- fetchTargetingIntelByCompetitorId of src/services/targetingIntel.ts.
Unavailable gateway: the mock constant, no round trip.  Otherwise one
single-row query filtered on competitor_id (no order clause in the
source); a query error or an exception yields the mock constant, null
data yields null, a delivered row is returned unchanged. -/
def fetchTargetingIntelByCompetitorId (connected : Bool) (loadTime : String)
    (store : List TargetingIntelData) (competitorId : String)
    (fail : QueryFail) : Option TargetingIntelData × Nat :=
  if !connected then
    (some (mockTargetingIntelData loadTime), 0)
  else
    match fail with
    | .err _ => (some (mockTargetingIntelData loadTime), 1)
    | .raised _ => (some (mockTargetingIntelData loadTime), 1)
    | .ok =>
      match (store.filter (fun r => r.competitor_id == competitorId)).head? with
      | none => (none, 1)
      | some row => (some row, 1)

/-- fetchLatestTargetingIntel of src/services/targetingIntel.ts.
Unavailable gateway: the mock constant, no round trip.  Otherwise one
single-row query (order created_at descending, limit 1); a query error or
an exception yields the mock constant, null data yields null, a delivered
row is returned unchanged. -/
def fetchLatestTargetingIntel (connected : Bool) (loadTime : String)
    (store : List TargetingIntelData) (fail : QueryFail) :
    Option TargetingIntelData × Nat :=
  if !connected then
    (some (mockTargetingIntelData loadTime), 0)
  else
    match fail with
    | .err _ => (some (mockTargetingIntelData loadTime), 1)
    | .raised _ => (some (mockTargetingIntelData loadTime), 1)
    | .ok =>
      match (List.insertionSort targCreatedDescRel store).head? with
      | none => (none, 1)
      | some row => (some row, 1)

/-- fetchTargetingIntelByCompetitorName of src/services/targetingIntel.ts.
Unavailable gateway: the mock constant, no round trip.  Otherwise one
single-row query (competitor_name ILIKE the quoted query, order
created_at descending, limit 1); a query error or an exception yields the
mock constant, null data yields null, a delivered row is returned
unchanged. -/
def fetchTargetingIntelByCompetitorName (connected : Bool) (loadTime : String)
    (store : List TargetingIntelData) (competitorName : String)
    (fail : QueryFail) : Option TargetingIntelData × Nat :=
  if !connected then
    (some (mockTargetingIntelData loadTime), 0)
  else
    match fail with
    | .err _ => (some (mockTargetingIntelData loadTime), 1)
    | .raised _ => (some (mockTargetingIntelData loadTime), 1)
    | .ok =>
      match (List.insertionSort targCreatedDescRel
          (store.filter (fun r => ilikeMatch r.competitor_name competitorName))).head? with
      | none => (none, 1)
      | some row => (some row, 1)

/-- The insert payload of createTargetingIntel: TargetingIntelData minus
id, created_at and updated_at (the Omit in the source signature). -/
structure TargetingIntelInput where
  competitor_id : String
  competitor_name : String
  age_distribution : AgeDistribution
  gender_distribution : GenderDistribution
  geographic_spend : List (String × CountrySpend)
  interest_clusters : List InterestCluster
  funnel_stage_prediction : FunnelStagePrediction
  bidding_strategy : BiddingStrategy
  advanced_targeting : AdvancedTargeting
  data_source : String
  confidence_score : ℚ
deriving DecidableEq

/-- The row createTargetingIntel inserts and the gateway echoes back: the
input payload with the client-assigned creation and update timestamps
(new Date().toISOString() at call time, the now argument) and the
store-assigned row id. -/
def buildTargetingRow (input : TargetingIntelInput)
    (assignedId now : String) : TargetingIntelData :=
  { id := assignedId
    competitor_id := input.competitor_id
    competitor_name := input.competitor_name
    age_distribution := input.age_distribution
    gender_distribution := input.gender_distribution
    geographic_spend := input.geographic_spend
    interest_clusters := input.interest_clusters
    funnel_stage_prediction := input.funnel_stage_prediction
    bidding_strategy := input.bidding_strategy
    advanced_targeting := input.advanced_targeting
    data_source := input.data_source
    confidence_score := input.confidence_score
    created_at := now
    updated_at := now }

/-- createTargetingIntel of src/services/targetingIntel.ts.  Unavailable
gateway: null, no round trip, store untouched.  Otherwise one insert
round trip; a store-reported error or an exception yields null with the
store unchanged by this layer; on success the inserted row (input plus
client-assigned timestamps and store-assigned id) is appended to the
store and returned.  Result: (returned value, store afterwards, round
trips issued). -/
def createTargetingIntel (connected : Bool) (now : String)
    (input : TargetingIntelInput) (store : List TargetingIntelData)
    (assignedId : String) (fail : QueryFail) :
    Option TargetingIntelData × List TargetingIntelData × Nat :=
  if !connected then
    (none, store, 0)
  else
    match fail with
    | .err _ => (none, store, 1)
    | .raised _ => (none, store, 1)
    | .ok =>
      let row := buildTargetingRow input assignedId now
      (some row, store ++ [row], 1)

/-- The result shape of testTargetingIntelConnection. -/
structure TIConnResult where
  connected : Bool
  recordCount : Nat
  latestRecord : Option String
  error : Option String
deriving DecidableEq

/-- testTargetingIntelConnection of src/services/targetingIntel.ts.
Unavailable gateway: connected false with the fixed message, no round
trip.  Otherwise a count query: a store-reported count error yields
connected false with that message and a zero count before the second
round trip is issued.  Then a single-row query for the latest record,
whose error field the source never examines: null data simply leaves
latestRecord absent while connected stays true; only an exception reaches
the catch block and degrades the result.  fmtDate stands for the locale
date rendering of toLocaleDateString. -/
def testTargetingIntelConnection (connected : Bool)
    (store : List TargetingIntelData) (countFail latestFail : QueryFail)
    (fmtDate : String → String) : TIConnResult × Nat :=
  if !connected then
    ({ connected := false, recordCount := 0, latestRecord := none,
       error := some "Not connected to Supabase" }, 0)
  else
    match countFail with
    | .raised m =>
      ({ connected := false, recordCount := 0, latestRecord := none,
         error := some m }, 1)
    | .err m =>
      ({ connected := false, recordCount := 0, latestRecord := none,
         error := some m }, 1)
    | .ok =>
      match latestFail with
      | .raised m =>
        ({ connected := false, recordCount := 0, latestRecord := none,
           error := some m }, 2)
      | .err _ =>
        ({ connected := true, recordCount := store.length,
           latestRecord := none, error := none }, 2)
      | .ok =>
        ({ connected := true, recordCount := store.length
           latestRecord :=
             (List.insertionSort targCreatedDescRel store).head?.map
               (fun r => r.competitor_name ++ " (" ++ fmtDate r.created_at ++ ")")
           error := none }, 2)

/-! ## A process state for the idempotence property

Reads are modelled above as pure functions of the connection flag, the
module-load timestamp and the store.  To state idempotence the way the
specification does — two successive calls against an unchanged store — a
small process state threads the stores through each call, charging the
issued round trips to a running counter.  A read never writes any store
component, which is exactly what makes the second call return the same
value. -/
structure World where
  connected : Bool
  loadTime : String
  today : String
  summaryStore : List RawSummaryRow
  dailyStore : List RawDailyRow
  targetingStore : List TargetingIntelData
  queryCount : Nat

/-- Charge n gateway round trips to the process state. -/
def chargeQueries (w : World) (n : Nat) : World :=
  { w with queryCount := w.queryCount + n }

/-- fetchSummaryMetrics run in the process state. -/
def runFetchSummaryMetrics (w : World) : RawSummaryRow × World :=
  let r := fetchSummaryMetrics w.connected w.loadTime w.summaryStore .ok
  (r.1, chargeQueries w r.2)

/-- fetchDailyMetrics run in the process state. -/
def runFetchDailyMetrics (w : World) (date : Option String) :
    List AdCardData × World :=
  let r := fetchDailyMetrics w.connected date w.today w.dailyStore .ok
  (r.1, chargeQueries w r.2)

/-- fetchAllTargetingIntel run in the process state. -/
def runFetchAllTargetingIntel (w : World) : List TargetingIntelData × World :=
  let r := fetchAllTargetingIntel w.connected w.loadTime w.targetingStore .ok
  (r.1, chargeQueries w r.2)

/-- fetchTargetingIntelByCompetitorId run in the process state. -/
def runFetchTargetingIntelByCompetitorId (w : World) (cid : String) :
    Option TargetingIntelData × World :=
  let r := fetchTargetingIntelByCompetitorId w.connected w.loadTime
    w.targetingStore cid .ok
  (r.1, chargeQueries w r.2)

/-- fetchTargetingIntelByCompetitorName run in the process state. -/
def runFetchTargetingIntelByCompetitorName (w : World) (q : String) :
    Option TargetingIntelData × World :=
  let r := fetchTargetingIntelByCompetitorName w.connected w.loadTime
    w.targetingStore q .ok
  (r.1, chargeQueries w r.2)

/-- fetchLatestTargetingIntel run in the process state. -/
def runFetchLatestTargetingIntel (w : World) : Option TargetingIntelData × World :=
  let r := fetchLatestTargetingIntel w.connected w.loadTime w.targetingStore .ok
  (r.1, chargeQueries w r.2)

/-! ## Concrete rows used by counterexamples and witnesses -/

/-- A daily_metrics row with one present numeric column. -/
def sampleDailyRow : RawDailyRow :=
  { id := "d1", date := "2024-05-01", daily_spend := some 5,
    daily_impressions := none, daily_ctr := none, competitor := none }

/-- A summary_metrics row most of whose columns are absent. -/
def partialSummaryRow : RawSummaryRow :=
  { id := some "row-1", total_competitor_spend := none,
    active_campaigns_count := none, total_impressions := none,
    average_ctr := none, platform_distribution := none,
    top_performers := none, spend_by_industry := none,
    created_at := some "2024-05-01T00:00:00Z", updated_at := none }

/-- A targeting row whose competitor name contains the query Nike as a
case-insensitive substring. -/
def nikeRunningRow : TargetingIntelData :=
  { mockTargetingIntelData "2024-05-01T00:00:00Z" with
    id := "row-7", competitor_name := "Nike Running" }

/-- A targeting row for a fixed competitor id. -/
def competitorC9Row : TargetingIntelData :=
  { mockTargetingIntelData "2024-05-01T00:00:00Z" with
    id := "row-9", competitor_id := "c9" }

/-! ## The claims -/

/-- C1: with the gateway unavailable, each of the six read operations
returns exactly its documented fallback value — the mock summary
constant, the empty daily list, the single-element mock targeting list,
and the mock targeting constant for the three single-row targeting
lookups — and issues zero gateway round trips, whatever the store
contents or the pending failure mode. -/
theorem claim1_unavailable_reads_return_fallback
    (loadTime today cid q : String) (date : Option String)
    (sStore : List RawSummaryRow) (dStore : List RawDailyRow)
    (tStore : List TargetingIntelData) (f1 f2 f3 f4 f5 f6 : QueryFail) :
    fetchSummaryMetrics false loadTime sStore f1 = (mockSummaryRaw loadTime, 0)
    ∧ fetchDailyMetrics false date today dStore f2 = (mockDailyMetrics, 0)
    ∧ fetchAllTargetingIntel false loadTime tStore f3
        = ([mockTargetingIntelData loadTime], 0)
    ∧ fetchTargetingIntelByCompetitorId false loadTime tStore cid f4
        = (some (mockTargetingIntelData loadTime), 0)
    ∧ fetchTargetingIntelByCompetitorName false loadTime tStore q f5
        = (some (mockTargetingIntelData loadTime), 0)
    ∧ fetchLatestTargetingIntel false loadTime tStore f6
        = (some (mockTargetingIntelData loadTime), 0) :=
  ⟨rfl, rfl, rfl, rfl, rfl, rfl⟩

/-- C6: createTargetingIntel returns null and issues zero gateway round
trips when the gateway is unavailable; with an available gateway a
store-reported insert error or an exception also yields null with the
store unchanged by this layer; on success it returns the inserted entity,
namely the input payload carrying the client-assigned creation and update
timestamps (the ISO clock value now) and the store-assigned id. -/
theorem claim6_create_contract (now : String) (input : TargetingIntelInput)
    (store : List TargetingIntelData) (assignedId m : String)
    (fail : QueryFail) :
    createTargetingIntel false now input store assignedId fail = (none, store, 0)
    ∧ createTargetingIntel true now input store assignedId (.err m)
        = (none, store, 1)
    ∧ createTargetingIntel true now input store assignedId (.raised m)
        = (none, store, 1)
    ∧ createTargetingIntel true now input store assignedId .ok
        = (some (buildTargetingRow input assignedId now),
           store ++ [buildTargetingRow input assignedId now], 1)
    ∧ (buildTargetingRow input assignedId now).created_at = now
    ∧ (buildTargetingRow input assignedId now).updated_at = now
    ∧ (buildTargetingRow input assignedId now).competitor_name
        = input.competitor_name :=
  ⟨rfl, rfl, rfl, rfl, rfl, rfl, rfl⟩

/-- C7 counterexample: in testDatabaseConnection a store-reported failure
of the summary count query does not degrade the probe — the source never
reads the error field of a count response — so the result keeps
connected true, reports the failed count as 0, reports the sibling daily
count, and attaches no error message; the claim asserts connected false
with the error attached. -/
theorem claim7_counterexample :
    (testDatabaseConnection true [] [sampleDailyRow]
        (.err "permission denied") .ok).1
      = { connected := true, summaryCount := 0, dailyCount := 1,
          error := none } :=
  rfl

/-- C7 (amended): a store-reported count failure degrades
testTargetingIntelConnection to connected false with that error message
and a zero count, before the latest-record round trip is issued; in
testDatabaseConnection only a thrown exception degrades the probe (with
the message and zero counts), while a store-reported count error is
ignored — the count defaults to 0 and connected stays true with the
sibling count still reported. -/
theorem claim7_amended_probe_failures (sStore : List RawSummaryRow)
    (dStore : List RawDailyRow) (tStore : List TargetingIntelData)
    (m : String) (lFail dFail : QueryFail) (fmtDate : String → String) :
    testTargetingIntelConnection true tStore (.err m) lFail fmtDate
      = ({ connected := false, recordCount := 0, latestRecord := none,
           error := some m }, 1)
    ∧ testTargetingIntelConnection true tStore (.raised m) lFail fmtDate
      = ({ connected := false, recordCount := 0, latestRecord := none,
           error := some m }, 1)
    ∧ testDatabaseConnection true sStore dStore (.raised m) dFail
      = ({ connected := false, summaryCount := 0, dailyCount := 0,
           error := some m }, 1)
    ∧ testDatabaseConnection true sStore dStore .ok (.raised m)
      = ({ connected := false, summaryCount := 0, dailyCount := 0,
           error := some m }, 2)
    ∧ testDatabaseConnection true sStore dStore (.err m) .ok
      = ({ connected := true, summaryCount := 0,
           dailyCount := dStore.length, error := none }, 2)
    ∧ testDatabaseConnection false sStore dStore .ok .ok
      = ({ connected := false, summaryCount := 0, dailyCount := 0,
           error := some "Not connected to Supabase" }, 0) :=
  ⟨rfl, rfl, rfl, rfl, rfl, rfl⟩

/-- C8: every read operation is idempotent within a process: running the
same read twice in the process state — the second call in the state left
by the first, which charges round trips but never writes a store — gives
identical results, in particular identical fallback values with their
module-load timestamps. -/
theorem claim8_reads_idempotent (w : World) (date : Option String)
    (cid q : String) :
    (runFetchSummaryMetrics ((runFetchSummaryMetrics w).2)).1
        = (runFetchSummaryMetrics w).1
    ∧ (runFetchDailyMetrics ((runFetchDailyMetrics w date).2) date).1
        = (runFetchDailyMetrics w date).1
    ∧ (runFetchAllTargetingIntel ((runFetchAllTargetingIntel w).2)).1
        = (runFetchAllTargetingIntel w).1
    ∧ (runFetchTargetingIntelByCompetitorId
          ((runFetchTargetingIntelByCompetitorId w cid).2) cid).1
        = (runFetchTargetingIntelByCompetitorId w cid).1
    ∧ (runFetchTargetingIntelByCompetitorName
          ((runFetchTargetingIntelByCompetitorName w q).2) q).1
        = (runFetchTargetingIntelByCompetitorName w q).1
    ∧ (runFetchLatestTargetingIntel ((runFetchLatestTargetingIntel w).2)).1
        = (runFetchLatestTargetingIntel w).1 :=
  ⟨rfl, rfl, rfl, rfl, rfl, rfl⟩

/-! ## Evaluation lemmas for the single-row targeting lookups -/

/-- With an available gateway and a clean round trip, the name lookup
returns the head of the filtered, recency-sorted rows. -/
theorem fetchByName_ok_eval (loadTime q : String)
    (store : List TargetingIntelData) :
    (fetchTargetingIntelByCompetitorName true loadTime store q .ok).1 =
      (List.insertionSort targCreatedDescRel
        (store.filter (fun r => ilikeMatch r.competitor_name q))).head? := by
  cases h : (List.insertionSort targCreatedDescRel
      (store.filter (fun r => ilikeMatch r.competitor_name q))).head? <;>
    simp [fetchTargetingIntelByCompetitorName, h]

/-- With an available gateway and a clean round trip, the id lookup
returns the head of the rows filtered on competitor_id. -/
theorem fetchById_ok_eval (loadTime cid : String)
    (store : List TargetingIntelData) :
    (fetchTargetingIntelByCompetitorId true loadTime store cid .ok).1 =
      (store.filter (fun r => r.competitor_id == cid)).head? := by
  cases h : (store.filter (fun r => r.competitor_id == cid)).head? <;>
    simp [fetchTargetingIntelByCompetitorId, h]

/-- C2: with an available gateway, fetchTargetingIntelByCompetitorName
returns a store row whose competitor_name contains the query as a
case-insensitive substring whenever one exists, and returns null — not
the fallback constant — when no store row matches, in particular on an
empty store. -/
theorem claim2_name_lookup_match_or_null (loadTime q : String)
    (store : List TargetingIntelData) :
    ((∃ r, r ∈ store ∧ ilikeMatch r.competitor_name q = true) →
      ∃ r, r ∈ store ∧ ilikeMatch r.competitor_name q = true ∧
        (fetchTargetingIntelByCompetitorName true loadTime store q .ok).1
          = some r)
    ∧ ((∀ r, r ∈ store → ilikeMatch r.competitor_name q = false) →
      (fetchTargetingIntelByCompetitorName true loadTime store q .ok).1
        = none) := by
  constructor
  · rintro ⟨r, hr, hm⟩
    have hmem : r ∈ List.insertionSort targCreatedDescRel
        (store.filter (fun s => ilikeMatch s.competitor_name q)) :=
      (List.perm_insertionSort _ _).mem_iff.mpr
        (List.mem_filter.mpr ⟨hr, hm⟩)
    cases hL : List.insertionSort targCreatedDescRel
        (store.filter (fun s => ilikeMatch s.competitor_name q)) with
    | nil => rw [hL] at hmem; exact absurd hmem (List.not_mem_nil r)
    | cons a t =>
      have ha : a ∈ store.filter (fun s => ilikeMatch s.competitor_name q) :=
        (List.perm_insertionSort _ _).mem_iff.mp
          (hL ▸ List.mem_cons_self a t)
      obtain ⟨ha1, ha2⟩ := List.mem_filter.mp ha
      exact ⟨a, ha1, ha2, by rw [fetchByName_ok_eval, hL]; rfl⟩
  · intro h
    rw [fetchByName_ok_eval]
    have hF : store.filter (fun s => ilikeMatch s.competitor_name q) = [] :=
      List.filter_eq_nil_iff.mpr (fun a ha => by simp [h a ha])
    rw [hF]
    rfl

/-- C2 witness: the scenario of the claim evaluated — a store holding one
row named Nike Running, queried with Nike, yields exactly that row. -/
theorem claim2_witness :
    ∃ r, r ∈ [nikeRunningRow]
      ∧ ilikeMatch r.competitor_name "Nike" = true
      ∧ (fetchTargetingIntelByCompetitorName true "2024-05-02T00:00:00Z"
          [nikeRunningRow] "Nike" .ok).1 = some r :=
  (claim2_name_lookup_match_or_null "2024-05-02T00:00:00Z" "Nike"
      [nikeRunningRow]).1
    ⟨nikeRunningRow, List.mem_singleton.mpr rfl, by decide⟩

/-- C3 counterexample: with an available gateway, a clean round trip and
a store holding no row for the requested competitor id — here the empty
store — fetchTargetingIntelByCompetitorId returns null, the explicit
not-found signal the claim says it never produces, and not the fallback
constant. -/
theorem claim3_counterexample :
    (fetchTargetingIntelByCompetitorId true "2024-05-02T00:00:00Z" []
        "c1" .ok).1 = none
    ∧ (fetchTargetingIntelByCompetitorId true "2024-05-02T00:00:00Z" []
        "c1" .ok).1
      ≠ some (mockTargetingIntelData "2024-05-02T00:00:00Z") :=
  ⟨rfl, fun h => Option.noConfusion h⟩

/-- C3 (amended): fetchTargetingIntelByCompetitorId returns the fallback
constant when the gateway is unavailable, on a store-reported query error
and on an exception; when the round trip succeeds it returns a store row
with the requested competitor_id if one exists, and null — an explicit
not-found signal, contrary to the claim — when none does. -/
theorem claim3_amended_id_lookup (loadTime cid m : String)
    (store : List TargetingIntelData) :
    (∀ fail, (fetchTargetingIntelByCompetitorId false loadTime store cid
        fail).1 = some (mockTargetingIntelData loadTime))
    ∧ (fetchTargetingIntelByCompetitorId true loadTime store cid (.err m)).1
        = some (mockTargetingIntelData loadTime)
    ∧ (fetchTargetingIntelByCompetitorId true loadTime store cid
        (.raised m)).1 = some (mockTargetingIntelData loadTime)
    ∧ ((∀ r, r ∈ store → r.competitor_id ≠ cid) →
        (fetchTargetingIntelByCompetitorId true loadTime store cid .ok).1
          = none)
    ∧ ((∃ r, r ∈ store ∧ r.competitor_id = cid) →
        ∃ r, r ∈ store ∧ r.competitor_id = cid ∧
          (fetchTargetingIntelByCompetitorId true loadTime store cid .ok).1
            = some r) := by
  refine ⟨fun _ => rfl, rfl, rfl, ?_, ?_⟩
  · intro h
    rw [fetchById_ok_eval]
    have hF : store.filter (fun r => r.competitor_id == cid) = [] :=
      List.filter_eq_nil_iff.mpr (fun a ha => by simp [h a ha])
    rw [hF]
    rfl
  · rintro ⟨r, hr, he⟩
    have hmem : r ∈ store.filter (fun s => s.competitor_id == cid) :=
      List.mem_filter.mpr ⟨hr, by simp [he]⟩
    cases hF : store.filter (fun s => s.competitor_id == cid) with
    | nil => rw [hF] at hmem; exact absurd hmem (List.not_mem_nil r)
    | cons a t =>
      have ha := hF ▸ List.mem_cons_self a t
      obtain ⟨ha1, ha2⟩ := List.mem_filter.mp ha
      exact ⟨a, ha1, by simpa using ha2, by rw [fetchById_ok_eval, hF]; rfl⟩

/-- C3 witness: the amended claim evaluated — a store holding one row for
competitor id c9 makes the id lookup return that row. -/
theorem claim3_witness :
    ∃ r, r ∈ [competitorC9Row] ∧ r.competitor_id = "c9" ∧
      (fetchTargetingIntelByCompetitorId true "2024-05-02T00:00:00Z"
          [competitorC9Row] "c9" .ok).1 = some r :=
  (claim3_amended_id_lookup "2024-05-02T00:00:00Z" "c9" "x"
      [competitorC9Row]).2.2.2.2
    ⟨competitorC9Row, List.mem_singleton.mpr rfl, rfl⟩

/-- C4: whatever the input date, the store contents, the connection state
and the failure mode, the list fetchDailyMetrics returns has at most 10
elements and is sorted by daily_spend in descending order (the fallback
list is empty; a delivered list is the spend-sorted, 10-limited query
result mapped row by row, and the mapping preserves the sort key). -/
theorem claim4_daily_limit_and_order (connected : Bool)
    (date : Option String) (today : String) (store : List RawDailyRow)
    (fail : QueryFail) :
    (fetchDailyMetrics connected date today store fail).1.length ≤ 10
    ∧ List.Sorted (fun a b : AdCardData => b.daily_spend ≤ a.daily_spend)
        (fetchDailyMetrics connected date today store fail).1 := by
  cases connected with
  | false => exact ⟨Nat.zero_le 10, List.sorted_nil⟩
  | true =>
    cases fail with
    | err m => exact ⟨Nat.zero_le 10, List.sorted_nil⟩
    | raised m => exact ⟨Nat.zero_le 10, List.sorted_nil⟩
    | ok =>
      have heval : (fetchDailyMetrics true date today store .ok).1 =
          ((List.insertionSort spendDescRel
            (store.filter (fun r => r.date == resolveTargetDate date today))).take
              10).map mapDailyRow := rfl
      constructor
      · rw [heval, List.length_map, List.length_take]
        exact min_le_left _ _
      · rw [heval]
        have hs : List.Pairwise spendDescRel
            ((List.insertionSort spendDescRel
              (store.filter (fun r => r.date == resolveTargetDate date today))).take 10) :=
          (List.sorted_insertionSort spendDescRel _).sublist
            (List.take_sublist _ _)
        exact hs.map mapDailyRow (fun a b h => h)

/-- With an available gateway and a clean round trip, fetchSummaryMetrics
returns the head of the recency-sorted store, or the mock constant when
the store is empty. -/
theorem fetchSummary_ok_eval (loadTime : String)
    (store : List RawSummaryRow) :
    (fetchSummaryMetrics true loadTime store .ok).1 =
      (match (List.insertionSort summaryCreatedDescRel store).take 1 with
        | [] => mockSummaryRaw loadTime
        | row :: _ => row) := by
  cases h : (List.insertionSort summaryCreatedDescRel store).take 1 <;>
    simp [fetchSummaryMetrics, h]

/-- With an available gateway and a clean round trip,
fetchAllTargetingIntel returns the recency-sorted store rows, or the
single-element mock list when the store is empty. -/
theorem fetchAll_ok_eval (loadTime : String)
    (store : List TargetingIntelData) :
    (fetchAllTargetingIntel true loadTime store .ok).1 =
      (if (List.insertionSort targCreatedDescRel store).isEmpty
        then [mockTargetingIntelData loadTime]
        else List.insertionSort targCreatedDescRel store) := by
  cases h : (List.insertionSort targCreatedDescRel store).isEmpty <;>
    simp [fetchAllTargetingIntel, h]

/-- C5 counterexample: fetchSummaryMetrics applies no row-to-entity
mapping — a delivered row is returned as data[0] under a compile-time
cast — so a store row whose total_competitor_spend column is absent
reaches the caller with that field still absent instead of defaulted to
0, refuting the claim that every read maps rows with field-level
defaults. -/
theorem claim5_counterexample :
    (fetchSummaryMetrics true "2024-05-02T00:00:00Z" [partialSummaryRow]
        .ok).1 = partialSummaryRow
    ∧ partialSummaryRow.total_competitor_spend = none :=
  ⟨rfl, rfl⟩

/-- C5 (amended): only fetchDailyMetrics maps raw rows to the entity
shape with field-level defaults — absent numeric columns become 0 and a
missing competitor reference becomes Unknown, while platform and status
are constants; fetchSummaryMetrics returns a delivered store row
unchanged (some row of the store, whatever fields it lacks), and
fetchAllTargetingIntel returns the delivered rows themselves, a
permutation of the store, with no defaulting applied. -/
theorem claim5_amended_row_mapping (loadTime : String) (row : RawDailyRow)
    (srow : RawSummaryRow) (srest : List RawSummaryRow)
    (trow : TargetingIntelData) (trest : List TargetingIntelData) :
    ((mapDailyRow row).daily_spend = row.daily_spend.getD 0
      ∧ (mapDailyRow row).daily_impressions = row.daily_impressions.getD 0
      ∧ (mapDailyRow row).daily_ctr = row.daily_ctr.getD 0
      ∧ (mapDailyRow row).competitor_name
          = (row.competitor.bind RawCompetitorRef.name).getD "Unknown"
      ∧ (mapDailyRow row).platform = "Mixed"
      ∧ (mapDailyRow row).status = "ACTIVE")
    ∧ (∃ r, r ∈ srow :: srest
        ∧ (fetchSummaryMetrics true loadTime (srow :: srest) .ok).1 = r)
    ∧ (fetchAllTargetingIntel true loadTime (trow :: trest) .ok).1.Perm
        (trow :: trest) := by
  refine ⟨⟨rfl, rfl, rfl, rfl, rfl, rfl⟩, ?_, ?_⟩
  · cases hL : List.insertionSort summaryCreatedDescRel (srow :: srest) with
    | nil =>
      have := (List.perm_insertionSort summaryCreatedDescRel
        (srow :: srest)).length_eq
      rw [hL] at this
      exact absurd this.symm (Nat.succ_ne_zero _)
    | cons a t =>
      refine ⟨a, ?_, ?_⟩
      · exact (List.perm_insertionSort summaryCreatedDescRel
          (srow :: srest)).mem_iff.mp (hL ▸ List.mem_cons_self a t)
      · have h1 : (List.insertionSort summaryCreatedDescRel
            (srow :: srest)).take 1 = [a] := by rw [hL]; rfl
        rw [fetchSummary_ok_eval, h1]
  · cases hL : List.insertionSort targCreatedDescRel (trow :: trest) with
    | nil =>
      have := (List.perm_insertionSort targCreatedDescRel
        (trow :: trest)).length_eq
      rw [hL] at this
      exact absurd this.symm (Nat.succ_ne_zero _)
    | cons a t =>
      have h1 : (List.insertionSort targCreatedDescRel
          (trow :: trest)).isEmpty = false := by rw [hL]; rfl
      rw [fetchAll_ok_eval, h1]
      exact List.perm_insertionSort targCreatedDescRel (trow :: trest)

/-- C9: every element fetchDailyMetrics ever returns has platform equal
to the constant Mixed and status equal to the constant ACTIVE: the
fallback list is empty and the row mapping writes both fields as
constants, never from store data. -/
theorem claim9_daily_constant_fields (connected : Bool)
    (date : Option String) (today : String) (store : List RawDailyRow)
    (fail : QueryFail) :
    (fetchDailyMetrics connected date today store fail).1.all
      (fun x => x.platform == "Mixed" && x.status == "ACTIVE") = true := by
  cases connected with
  | false => rfl
  | true =>
    cases fail with
    | err m => rfl
    | raised m => rfl
    | ok =>
      rw [List.all_eq_true]
      intro x hx
      obtain ⟨r, _, rfl⟩ := List.mem_map.mp hx
      rfl

/-- C10: in testTargetingIntelConnection a store-reported failure of the
latest-record query after a successful count query does not degrade the
probe — the source never reads that error field — so the result keeps
connected true with the count reported and latestRecord absent; and with
an available gateway, connected is false exactly when the count query
reported an error, the count query threw, or the latest-record query
threw. -/
theorem claim10_latest_failure_not_degrading
    (store : List TargetingIntelData) (m : String) (cf lf : QueryFail)
    (fmtDate : String → String) :
    testTargetingIntelConnection true store .ok (.err m) fmtDate
      = ({ connected := true, recordCount := store.length,
           latestRecord := none, error := none }, 2)
    ∧ ((testTargetingIntelConnection true store cf lf fmtDate).1.connected
          = false ↔
        (∃ m2, cf = QueryFail.err m2) ∨ (∃ m2, cf = QueryFail.raised m2)
          ∨ (∃ m2, lf = QueryFail.raised m2)) := by
  refine ⟨rfl, ?_⟩
  cases cf <;> cases lf <;> simp [testTargetingIntelConnection]
